import Mathlib

set_option maxRecDepth 8192

/-!
Verification development for the wkc-mcp backend service.

The repository is a Python service (FastAPI) with four relevant modules:
`gemini_agent.py` (the natural-language dispatcher and its eleven registered
callables), `gemini_service.py` (the order-intake pipeline),
`firebase_client.py` (the document-store adapter) and `main.py` (the HTTP
layer).  This file is a shallow embedding of the parts of those modules that
the stated claims depend on.

Modelling conventions:
 - JSON-like Python values (everything that flows through `json.loads`,
   function parameters, result dictionaries) are the inductive type `Json`
   below.  Dictionaries are insertion-ordered association lists with unique
   keys, exactly as a Python `dict` built from JSON behaves.  JSON numbers are
   rationals (exact stand-ins for the Python int/float values that occur in
   this code; no claim depends on binary floating point rounding).
 - The hosted text-generation call (`model.generate_content`) is an external
   collaborator.  One invocation either yields a text or raises; this single
   outcome is the `GenOutcome` value supplied to the embedded function.
 - The document store (`firebase_client` methods, each of which performs a
   network call) is the `Store` record of outcome functions.  Methods that
   catch all exceptions internally and return a bool or None are given the
   corresponding total type; methods that re-raise return `Except`.
 - Raising an exception is `Except.error msg`.  The embedded functions record
   every document-store invocation in a `StoreCall` list, so that claims of
   the form "no store call occurs" are statable.
 - Python semantics that the code relies on (truthiness, `str.strip`,
   `dict.get`, `**kwargs` binding, the `in` operator on a dict raising
   `TypeError` for unhashable keys, greedy regex search) are embedded by the
   `py...` helpers, each documented at its definition.
-/

/-- JSON-like Python value: the payloads that flow through the dispatcher,
the intake pipeline and the store adapter.  `obj` is an insertion-ordered
association list with unique keys (a Python dict built from JSON). -/
inductive Json where
  | null : Json
  | bool : Bool → Json
  | num : ℚ → Json
  | str : String → Json
  | arr : List Json → Json
  | obj : List (String × Json) → Json

/-- Constructor name of the corresponding Python runtime type, as it appears
in Python error messages (`int` versus `float` follows whether the rational
is integral, matching how `json.loads` produces ints and floats). -/
def Json.pyTypeName : Json → String
  | .null => "NoneType"
  | .bool _ => "bool"
  | .num q => if q.den = 1 then "int" else "float"
  | .str _ => "str"
  | .arr _ => "list"
  | .obj _ => "dict"

/-- Python truthiness (`if x:`): None and False are falsy, numbers are falsy
exactly at zero, strings and containers are falsy exactly when empty. -/
def pyTruthy : Json → Bool
  | .null => false
  | .bool b => b
  | .num q => decide (q ≠ 0)
  | .str s => decide (s ≠ "")
  | .arr l => !l.isEmpty
  | .obj l => !l.isEmpty

/-- Test for the Python `is None` / `is not None` comparison. -/
def Json.isNull : Json → Bool
  | .null => true
  | _ => false

/-- Lookup in a dict association list (keys are unique, so the first hit is
the binding). -/
def kwLookup (l : List (String × Json)) (k : String) : Option Json :=
  (l.find? (fun p => p.1 == k)).map (·.2)

/-- Python `d.get(k, default)` on a dict association list. -/
def kwGet (l : List (String × Json)) (k : String) (d : Json) : Json :=
  (kwLookup l k).getD d

/-- Key lookup on a `Json` value that is known to be a dict; non-dicts have
no keys. -/
def jLookup : Json → String → Option Json
  | .obj l, k => kwLookup l k
  | _, _ => none

/-- Python `d.get(k, default)` lifted to `Json`. -/
def jGet (j : Json) (k : String) (d : Json) : Json :=
  (jLookup j k).getD d

/-- Python `d[k] = v` on a dict association list: replace in place when the
key exists, append otherwise (dicts keep first-insertion order). -/
def objInsert (l : List (String × Json)) (k : String) (v : Json) : List (String × Json) :=
  if l.any (fun p => p.1 == k) then
    l.map (fun p => if p.1 == k then (k, v) else p)
  else
    l ++ [(k, v)]

/-- Python `x[k]` subscript access: `KeyError` (whose message is the quoted
key) on a dict without the key, `TypeError` on non-subscriptable values. -/
def pyGetItem (j : Json) (k : String) : Except String Json :=
  match j with
  | .obj l =>
    match kwLookup l k with
    | some v => .ok v
    | none => .error ("\x27" ++ k ++ "\x27")
  | _ => .error ("\x27" ++ j.pyTypeName ++ "\x27 object is not subscriptable")

/-- Python `len(x)`: defined on strings (code points), lists and dicts;
`TypeError` otherwise. -/
def pyLen (j : Json) : Except String Nat :=
  match j with
  | .str s => .ok s.length
  | .arr l => .ok l.length
  | .obj l => .ok l.length
  | _ => .error ("object of type \x27" ++ j.pyTypeName ++ "\x27 has no len()")

/-- Characters removed by Python `str.strip()` (the ASCII whitespace set;
the queries in this system are ASCII). -/
def pyIsSpace (c : Char) : Bool :=
  c == ' ' || c == '\t' || c == '\n' || c == '\r' || c == '\x0b' || c == '\x0c'

/-- Python `s.strip()`. -/
def pyStrip (s : String) : String :=
  String.mk (((s.toList.dropWhile pyIsSpace).reverse.dropWhile pyIsSpace).reverse)

/-- Python `s[:n]` (slicing counts code points). -/
def pyTake (s : String) (n : Nat) : String :=
  String.mk (s.toList.take n)

/-- Length of a `Json` array, used to discriminate concrete item lists. -/
def Json.arrLength : Json → Nat
  | .arr l => l.length
  | _ => 0

/-- Whitespace skipped by Python `json.loads` between tokens (the JSON
whitespace set, narrower than `str.strip`). -/
def skipWs (cs : List Char) : List Char :=
  cs.dropWhile (fun c => c == ' ' || c == '\t' || c == '\n' || c == '\r')

/-- Hex digit value, for `\uXXXX` string escapes. -/
def hexVal (c : Char) : Option Nat :=
  if c.isDigit then some (c.toNat - 48)
  else if 'a' ≤ c && c ≤ 'f' then some (c.toNat - 87)
  else if 'A' ≤ c && c ≤ 'F' then some (c.toNat - 55)
  else none

/-- Body of a JSON string literal after the opening quote, with the escape
set accepted by `json.loads`.  Fuelled with one unit per consumed character. -/
def parseStringBody : Nat → List Char → Except String (String × List Char)
  | 0, _ => .error "Unterminated string"
  | _ + 1, [] => .error "Unterminated string"
  | fuel + 1, c :: rest =>
    if c == '"' then .ok ("", rest)
    else if c == '\\' then
      match rest with
      | [] => .error "Unterminated string"
      | e :: rest2 =>
        if e == 'u' then
          match rest2 with
          | a :: b :: c2 :: d :: rest3 =>
            match hexVal a, hexVal b, hexVal c2, hexVal d with
            | some ha, some hb, some hc, some hd => do
              let code := ((ha * 16 + hb) * 16 + hc) * 16 + hd
              let (s, r) ← parseStringBody fuel rest3
              .ok (String.mk (Char.ofNat code :: s.toList), r)
            | _, _, _, _ => .error "Invalid \\uXXXX escape"
          | _ => .error "Invalid \\uXXXX escape"
        else do
          let ec ← (match e with
            | '"' => .ok '"'
            | '\\' => .ok '\\'
            | '/' => .ok '/'
            | 'b' => .ok '\x08'
            | 'f' => .ok '\x0c'
            | 'n' => .ok '\n'
            | 'r' => .ok '\r'
            | 't' => .ok '\t'
            | _ => Except.error "Invalid \\escape")
          let (s, r) ← parseStringBody fuel rest2
          .ok (String.mk (ec :: s.toList), r)
    else do
      let (s, r) ← parseStringBody fuel rest
      .ok (String.mk (c :: s.toList), r)

/-- Digit run to a natural number. -/
def digitsToNat (ds : List Char) : Nat :=
  ds.foldl (fun a c => a * 10 + (c.toNat - 48)) 0

/-- JSON number literal, following the grammar `json.loads` matches:
optional minus, an integer part that is `0` or starts with a nonzero digit,
an optional fraction requiring at least one digit, an optional exponent
requiring at least one digit.  A part that cannot start is left unconsumed,
exactly as the scanning regex of the Python decoder behaves. -/
def parseNum (cs : List Char) : Except String (Json × List Char) :=
  let (neg, cs1) := match cs with
    | '-' :: r => (true, r)
    | _ => (false, cs)
  match cs1 with
  | [] => .error "Expecting value"
  | c :: _ =>
    if !c.isDigit then .error "Expecting value"
    else
      let (ids, r1) :=
        if c == '0' then (['0'], cs1.tail)
        else (cs1.takeWhile Char.isDigit, cs1.dropWhile Char.isDigit)
      let (fds, r2) := match r1 with
        | '.' :: d :: r => if d.isDigit
            then (('.' :: d :: r).tail.takeWhile Char.isDigit,
                  ('.' :: d :: r).tail.dropWhile Char.isDigit)
            else ([], r1)
        | _ => ([], r1)
      let (eneg, eds, r3) := match r2 with
        | e :: '-' :: d :: r => if (e == 'e' || e == 'E') && d.isDigit
            then (true, (d :: r).takeWhile Char.isDigit, (d :: r).dropWhile Char.isDigit)
            else (false, [], r2)
        | e :: '+' :: d :: r => if (e == 'e' || e == 'E') && d.isDigit
            then (false, (d :: r).takeWhile Char.isDigit, (d :: r).dropWhile Char.isDigit)
            else (false, [], r2)
        | e :: d :: r => if (e == 'e' || e == 'E') && d.isDigit
            then (false, (d :: r).takeWhile Char.isDigit, (d :: r).dropWhile Char.isDigit)
            else (false, [], r2)
        | _ => (false, [], r2)
      let mantissa : Int := digitsToNat ids * 10 ^ fds.length + digitsToNat fds
      let mantissa : Int := if neg then -mantissa else mantissa
      let den : Nat := 10 ^ fds.length
      let exp : Nat := digitsToNat eds
      let q : ℚ := if eneg then mkRat mantissa (den * 10 ^ exp)
                   else mkRat (mantissa * 10 ^ exp) den
      .ok (.num q, r3)

mutual

/-- One JSON value, as parsed by `json.loads` at the current position.  The
fuel shrinks at every mutual call; `jsonLoads` supplies enough of it for any
input. -/
def parseVal : Nat → List Char → Except String (Json × List Char)
  | 0, _ => .error "Expecting value"
  | fuel + 1, cs =>
    match skipWs cs with
    | 'n' :: 'u' :: 'l' :: 'l' :: rest => .ok (.null, rest)
    | 't' :: 'r' :: 'u' :: 'e' :: rest => .ok (.bool true, rest)
    | 'f' :: 'a' :: 'l' :: 's' :: 'e' :: rest => .ok (.bool false, rest)
    | '"' :: rest => do
      let (s, r) ← parseStringBody (rest.length + 1) rest
      .ok (.str s, r)
    | '{' :: rest =>
      (match skipWs rest with
       | '}' :: r2 => .ok (.obj [], r2)
       | r2 => parseMembers fuel r2 [])
    | '[' :: rest =>
      (match skipWs rest with
       | ']' :: r2 => .ok (.arr [], r2)
       | r2 => parseElems fuel r2 [])
    | c :: rest =>
      if c.isDigit || c == '-' then parseNum (c :: rest)
      else .error "Expecting value"
    | [] => .error "Expecting value"

/-- Members of a JSON object after the opening brace (non-empty case). -/
def parseMembers : Nat → List Char → List (String × Json) →
    Except String (Json × List Char)
  | 0, _, _ => .error "Expecting value"
  | fuel + 1, cs, acc =>
    match skipWs cs with
    | '"' :: r => do
      let (k, r1) ← parseStringBody (r.length + 1) r
      match skipWs r1 with
      | ':' :: r2 => do
        let (v, r3) ← parseVal fuel r2
        let acc2 := objInsert acc k v
        (match skipWs r3 with
         | ',' :: r4 => parseMembers fuel r4 acc2
         | '}' :: r4 => .ok (.obj acc2, r4)
         | _ => .error "Expecting delimiter")
      | _ => .error "Expecting colon delimiter"
    | _ => .error "Expecting property name enclosed in double quotes"

/-- Elements of a JSON array after the opening bracket (non-empty case). -/
def parseElems : Nat → List Char → List Json → Except String (Json × List Char)
  | 0, _, _ => .error "Expecting value"
  | fuel + 1, cs, acc => do
    let (v, r) ← parseVal fuel cs
    match skipWs r with
    | ',' :: r2 => parseElems fuel r2 (acc ++ [v])
    | ']' :: r2 => .ok (.arr (acc ++ [v]), r2)
    | _ => .error "Expecting delimiter"

end

/-- Python `json.loads`: parse one JSON document and reject trailing content
(the decoder raises `JSONDecodeError` with message `Extra data` there).
Raising is the `.error` branch; the message text is a compact model of the
`JSONDecodeError` string, which the claims never inspect beyond being the
raised message. -/
def jsonLoads (s : String) : Except String Json := do
  let (v, rest) ← parseVal (2 * s.length + 2) s.toList
  if (skipWs rest).isEmpty then .ok v else .error "Extra data"

/-- The dispatcher recovery step models
`re.search(r'\x7b.*\x7d', text, re.DOTALL)`: with the greedy `.*` and
DOTALL this matches, when it matches at all, the substring from the first
opening brace to the last closing brace after it; the match is never
checked for balance. -/
def reBraceSearch (s : String) : Option String :=
  let cs := s.toList
  match cs.findIdx? (· == '{'), cs.reverse.findIdx? (· == '}') with
  | some i, some jr =>
    let j := cs.length - 1 - jr
    if i < j then some (String.mk ((cs.drop i).take (j - i + 1))) else none
  | _, _ => none

/-- Least exponent `k ≤ 64` with `den` dividing `10 ^ k`; every number
produced by the JSON parser in this system has such a denominator. -/
def ratDecimalExp (den : Nat) : Option Nat :=
  (List.range 65).find? (fun k => 10 ^ k % den == 0)

/-- Zero-pad a digit string on the left to width `k`. -/
def padZeros (s : String) (k : Nat) : String :=
  String.mk (List.replicate (k - s.length) '0' ++ s.toList)

/-- Python `str` of a number: integers print without a point, the
non-integral rationals standing in for floats print as their exact decimal
expansion (which for every literal occurring in this code is also the
shortest float repr Python would print). -/
def ratStr (q : ℚ) : String :=
  if q.den = 1 then toString q.num
  else
    match ratDecimalExp q.den with
    | some k =>
      let scaled := q.num.natAbs * (10 ^ k / q.den)
      let ip := scaled / 10 ^ k
      let fp := scaled % 10 ^ k
      (if q.num < 0 then "-" else "") ++ toString ip ++ "." ++ padZeros (toString fp) k
    | none => toString q.num ++ "/" ++ toString q.den

mutual

/-- Python `str(x)` as used by the f-strings of this code: identity on
strings, `str`/`repr` agreeing on everything else. -/
def pyStr : Json → String
  | .str s => s
  | j => pyRepr j

/-- Python `repr(x)` for JSON-shaped values (strings quoted, containers
rendered recursively); only the string and integer cases are ever
interpolated on a claim-relevant path. -/
def pyRepr : Json → String
  | .null => "None"
  | .bool true => "True"
  | .bool false => "False"
  | .num q => ratStr q
  | .str s => "\x27" ++ s ++ "\x27"
  | .arr l => "[" ++ String.intercalate ", " (pyReprList l) ++ "]"
  | .obj l => "\x7b" ++ String.intercalate ", " (pyReprPairs l) ++ "\x7d"

/-- Representations of the elements of a list value. -/
def pyReprList : List Json → List String
  | [] => []
  | j :: t => pyRepr j :: pyReprList t

/-- Representations of the entries of a dict value. -/
def pyReprPairs : List (String × Json) → List String
  | [] => []
  | (k, v) :: t => ("\x27" ++ k ++ "\x27: " ++ pyRepr v) :: pyReprPairs t

end

/-- Outcome of the single `model.generate_content` call an invocation makes:
the external text-generation collaborator either returns a text or raises. -/
inductive GenOutcome where
  | ok : String → GenOutcome
  | raise : String → GenOutcome

/-- One invocation of a `firebase_client` method, with the argument values
as passed; recorded so that absence of store traffic is statable. -/
inductive StoreCall where
  | getSellerProducts : Json → Json → Json → StoreCall
  | getProductById : Json → StoreCall
  | createProduct : Json → StoreCall
  | updateProduct : Json → Json → StoreCall
  | deleteProduct : Json → StoreCall
  | searchProducts : Json → Json → Json → StoreCall
  | updateProductQuantity : Json → Json → StoreCall
  | createOrder : Json → Json → StoreCall
  | getUserOrders : Json → StoreCall
  | getOrderById : Json → StoreCall
  | updateOrderStatus : Json → Json → StoreCall

/-- Outcomes of the document-store adapter (`firebase_client.py`) for one
request, as seen by its callers.  Per the adapter source, `create_product`,
`get_seller_products`, `search_products`, `create_order` and
`get_user_orders` re-raise failures (`Except`); `update_product`,
`delete_product`, `update_product_quantity` and `update_order_status` catch
everything and return a bool; `get_product_by_id` and `get_order_by_id`
catch everything and return the document or None.  Arguments are the raw
values the agent passes through (unvalidated model output). -/
structure Store where
  get_seller_products : Json → Json → Json → Except String Json
  get_product_by_id : Json → Option Json
  create_product : Json → Except String String
  update_product : Json → Json → Bool
  delete_product : Json → Bool
  search_products : Json → Json → Json → Except String Json
  update_product_quantity : Json → Json → Bool
  create_order : Json → Json → Except String String
  get_user_orders : Json → Except String Json
  get_order_by_id : Json → Option Json
  update_order_status : Json → Json → Bool

/-- A concrete store outcome assignment used to instantiate theorems on
explicit inputs: every operation succeeds with a fixed benign value. -/
def stubStore : Store where
  get_seller_products := fun _ _ _ =>
    .ok (.obj [("products", .arr []), ("count", .num 0), ("total_count", .num 0),
               ("total_pages", .num 0), ("current_page", .num 1), ("limit", .num 10)])
  get_product_by_id := fun _ => none
  create_product := fun _ => .ok "prod1"
  update_product := fun _ _ => true
  delete_product := fun _ => true
  search_products := fun _ _ _ => .ok (.arr [])
  update_product_quantity := fun _ _ => true
  create_order := fun _ _ => .ok "ord1"
  get_user_orders := fun _ => .ok (.arr [])
  get_order_by_id := fun _ => none
  update_order_status := fun _ _ => true

namespace GeminiAgent

/-- Keys of the `available_functions` dict built in `GeminiAgent.__init__`,
in source order; each maps to the callable embedded below. -/
def available_function_names : List String :=
  ["get_seller_products", "get_product_details", "create_product",
   "update_product", "delete_product", "search_products",
   "update_product_quantity", "get_user_orders", "get_order_details",
   "place_order", "update_order_status"]

/-- One entry of `function_descriptions`: the registry metadata shown to the
model (name, description, and an ordered parameter-name/spec-string map). -/
structure FunctionDescription where
  name : String
  description : String
  parameters : List (String × String)

/-- The `function_descriptions` list of `GeminiAgent.__init__`, transcribed
verbatim. -/
def function_descriptions : List FunctionDescription :=
  [{ name := "get_seller_products",
     description := "Get all products for a specific seller with pagination",
     parameters :=
       [("user_id", "string - Seller\x27s Firebase user ID"),
        ("page", "integer - Page number (default: 1)"),
        ("limit", "integer - Number of products per page (default: 10)")] },
   { name := "get_product_details",
     description := "Get detailed information about a specific product",
     parameters := [("product_id", "string - Product ID to retrieve")] },
   { name := "create_product",
     description := "Create a new product for a seller",
     parameters :=
       [("category", "string - Product category (e.g., Electronics, Clothing)"),
        ("companyName", "string - Company name"),
        ("description", "string - Product description"),
        ("imageUrl", "string - Product image URL"),
        ("name", "string - Product name"),
        ("price", "number - Product price"),
        ("quantity", "integer - Available quantity"),
        ("sku", "string - Product SKU"),
        ("userId", "string - Seller\x27s Firebase user ID"),
        ("userType", "string - User type (default: seller)")] },
   { name := "update_product",
     description := "Update an existing product\x27s information",
     parameters :=
       [("product_id", "string - Product ID to update"),
        ("name", "string - New product name (optional)"),
        ("price", "number - New price (optional)"),
        ("quantity", "integer - New quantity (optional)"),
        ("description", "string - New description (optional)"),
        ("category", "string - New category (optional)"),
        ("imageUrl", "string - New image URL (optional)")] },
   { name := "delete_product",
     description := "Delete a product from inventory",
     parameters := [("product_id", "string - Product ID to delete")] },
   { name := "search_products",
     description := "Search products for a seller by name, description, or SKU",
     parameters :=
       [("user_id", "string - Seller\x27s Firebase user ID"),
        ("search_term", "string - Search term"),
        ("category", "string - Category filter (optional)")] },
   { name := "update_product_quantity",
     description := "Update the quantity of a specific product",
     parameters :=
       [("product_id", "string - Product ID"),
        ("quantity", "integer - New quantity")] },
   { name := "get_user_orders",
     description := "Get all orders for a specific user",
     parameters := [("user_id", "string - User\x27s Firebase user ID")] },
   { name := "get_order_details",
     description := "Get detailed information about a specific order",
     parameters := [("order_id", "string - Order ID to retrieve")] },
   { name := "place_order",
     description := "Place a new order via chat message",
     parameters :=
       [("user_id", "string - Buyer\x27s Firebase user ID"),
        ("chat_message", "string - Order message"),
        ("order_details", "object - Additional order details (optional)"),
        ("use_ai_processing", "boolean - Whether to use AI processing (default: true)")] },
   { name := "update_order_status",
     description := "Update the status of an order",
     parameters :=
       [("order_id", "string - Order ID"),
        ("status", "string - New status (pending, processing, completed, cancelled)")] }]

/-- Failure dict every callable returns from its own `except` clause. -/
def errResult (e : String) : Json :=
  .obj [("success", .bool false), ("error", .str e)]

/-- The `_get_seller_products` callable: pass through to the store, report
the page; a raise from the store or the `result[\x27count\x27]` access is
caught by the callable\x27s own handler. -/
def get_seller_products (st : Store) (user_id page limit : Json) :
    Json × List StoreCall :=
  ((match st.get_seller_products user_id page limit with
    | .error e => errResult e
    | .ok result =>
      match pyGetItem result "count" with
      | .error e => errResult e
      | .ok cnt =>
        .obj [("success", .bool true), ("data", result),
              ("message", .str ("Retrieved " ++ pyStr cnt ++ " products for seller"))]),
   [StoreCall.getSellerProducts user_id page limit])

/-- The `_get_product_details` callable; `if product:` is Python truthiness,
so an absent document and a falsy one both report not-found. -/
def get_product_details (st : Store) (product_id : Json) : Json × List StoreCall :=
  ((match st.get_product_by_id product_id with
    | some product =>
      if pyTruthy product then
        .obj [("success", .bool true), ("data", product),
              ("message", .str ("Retrieved details for product " ++ pyStr product_id))]
      else errResult "Product not found"
    | none => errResult "Product not found"),
   [StoreCall.getProductById product_id])

/-- The required-field list checked (in this order) by `_create_product`. -/
def create_required_fields : List String :=
  ["category", "companyName", "description", "imageUrl", "name", "price",
   "quantity", "sku", "userId"]

/-- The `_create_product` callable: presence check of the nine required
fields, `userType` defaulted, then the store call.  No value validation of
any kind (in particular none on `price`) happens on this path. -/
def create_product (st : Store) (kwargs : List (String × Json)) :
    Json × List StoreCall :=
  match create_required_fields.find? (fun f => !(kwargs.any (fun p => p.1 == f))) with
  | some f => (errResult ("Missing required field: " ++ f), [])
  | none =>
    let kwargs2 := if kwargs.any (fun p => p.1 == "userType") then kwargs
                   else objInsert kwargs "userType" (.str "seller")
    ((match st.create_product (.obj kwargs2) with
      | .ok product_id =>
        .obj [("success", .bool true),
              ("data", .obj [("product_id", .str product_id)]),
              ("message", .str ("Product \x27" ++ pyStr (kwGet kwargs2 "name" .null)
                                ++ "\x27 created successfully"))]
      | .error e => errResult e),
     [StoreCall.createProduct (.obj kwargs2)])

/-- The `_update_product` callable: drop the None-valued keyword arguments,
refuse an empty update without touching the store, otherwise pass the rest
through. -/
def update_product (st : Store) (product_id : Json) (kwargs : List (String × Json)) :
    Json × List StoreCall :=
  let update_data := kwargs.filter (fun p => !p.2.isNull)
  if update_data.isEmpty then
    (errResult "No valid update data provided", [])
  else
    ((if st.update_product product_id (.obj update_data) then
        .obj [("success", .bool true), ("data", .obj [("product_id", product_id)]),
              ("message", .str ("Product " ++ pyStr product_id ++ " updated successfully"))]
      else errResult "Failed to update product"),
     [StoreCall.updateProduct product_id (.obj update_data)])

/-- The `_delete_product` callable. -/
def delete_product (st : Store) (product_id : Json) : Json × List StoreCall :=
  ((if st.delete_product product_id then
      .obj [("success", .bool true), ("data", .obj [("product_id", product_id)]),
            ("message", .str ("Product " ++ pyStr product_id ++ " deleted successfully"))]
    else errResult "Failed to delete product"),
   [StoreCall.deleteProduct product_id])

/-- The `_search_products` callable. -/
def search_products (st : Store) (user_id search_term category : Json) :
    Json × List StoreCall :=
  ((match st.search_products user_id search_term category with
    | .error e => errResult e
    | .ok products =>
      match pyLen products with
      | .error e => errResult e
      | .ok n =>
        .obj [("success", .bool true),
              ("data", .obj [("products", products), ("count", .num n)]),
              ("message", .str ("Found " ++ toString n ++ " products matching \x27"
                                ++ pyStr search_term ++ "\x27"))]),
   [StoreCall.searchProducts user_id search_term category])

/-- The `_update_product_quantity` callable. -/
def update_product_quantity (st : Store) (product_id quantity : Json) :
    Json × List StoreCall :=
  ((if st.update_product_quantity product_id quantity then
      .obj [("success", .bool true),
            ("data", .obj [("product_id", product_id), ("quantity", quantity)]),
            ("message", .str ("Product quantity updated to " ++ pyStr quantity))]
    else errResult "Failed to update quantity"),
   [StoreCall.updateProductQuantity product_id quantity])

/-- The `_get_user_orders` callable. -/
def get_user_orders (st : Store) (user_id : Json) : Json × List StoreCall :=
  ((match st.get_user_orders user_id with
    | .error e => errResult e
    | .ok orders =>
      match pyLen orders with
      | .error e => errResult e
      | .ok n =>
        .obj [("success", .bool true),
              ("data", .obj [("orders", orders), ("count", .num n)]),
              ("message", .str ("Retrieved " ++ toString n ++ " orders for user"))]),
   [StoreCall.getUserOrders user_id])

/-- The `_get_order_details` callable. -/
def get_order_details (st : Store) (order_id : Json) : Json × List StoreCall :=
  ((match st.get_order_by_id order_id with
    | some ord =>
      if pyTruthy ord then
        .obj [("success", .bool true), ("data", ord),
              ("message", .str ("Retrieved details for order " ++ pyStr order_id))]
      else errResult "Order not found"
    | none => errResult "Order not found"),
   [StoreCall.getOrderById order_id])

/-- The `_place_order` callable; `order_details or \x7b\x7d` is Python
truthiness, and `use_ai_processing` is accepted but unused by the body. -/
def place_order (st : Store) (user_id chat_message order_details _use_ai_processing : Json) :
    Json × List StoreCall :=
  let od := if pyTruthy order_details then order_details else .obj []
  let order_data : Json := .obj [("chat_message", chat_message), ("order_details", od)]
  ((match st.create_order user_id order_data with
    | .ok order_id =>
      .obj [("success", .bool true), ("data", .obj [("order_id", .str order_id)]),
            ("message", .str ("Order placed successfully with ID: " ++ order_id))]
    | .error e => errResult e),
   [StoreCall.createOrder user_id order_data])

/-- The `_update_order_status` callable. -/
def update_order_status (st : Store) (order_id status : Json) : Json × List StoreCall :=
  ((if st.update_order_status order_id status then
      .obj [("success", .bool true),
            ("data", .obj [("order_id", order_id), ("status", status)]),
            ("message", .str ("Order status updated to " ++ pyStr status))]
    else errResult "Failed to update order status"),
   [StoreCall.updateOrderStatus order_id status])

/-- Keyword-binding step of `f(**parameters)` for a bound method with the
given required and defaulted parameter names: an unexpected keyword is
detected before a missing one, as CPython does; a signature with a
`**kwargs` catch-all accepts every extra keyword.  The message texts are a
compact model of the corresponding `TypeError` strings. -/
def bindParams (required optionalNames : List String) (hasKwargs : Bool)
    (kw : List (String × Json)) : Except String Unit :=
  match (if hasKwargs then none
         else kw.find? (fun p => !((required ++ optionalNames).contains p.1))) with
  | some p => .error ("got an unexpected keyword argument \x27" ++ p.1 ++ "\x27")
  | none =>
    match required.find? (fun r => !(kw.any (fun p => p.1 == r))) with
    | some r => .error ("missing a required argument: \x27" ++ r ++ "\x27")
    | none => .ok ()

/-- `self.available_functions[function_name](**parameters)`: spread the
parsed parameter mapping into the selected callable.  An `.error` is an
exception raised by the spread or binding itself (caught only by the
dispatcher\x27s outer handler); a non-mapping `parameters` value raises
before any binding, as `**` requires a mapping. -/
def call_function (st : Store) (fname : String) (params : Json) :
    Except String (Json × List StoreCall) :=
  match params with
  | .obj kw =>
    match fname with
    | "get_seller_products" => do
      let _ ← bindParams ["user_id"] ["page", "limit"] false kw
      .ok (get_seller_products st (kwGet kw "user_id" .null)
            (kwGet kw "page" (.num 1)) (kwGet kw "limit" (.num 10)))
    | "get_product_details" => do
      let _ ← bindParams ["product_id"] [] false kw
      .ok (get_product_details st (kwGet kw "product_id" .null))
    | "create_product" => .ok (create_product st kw)
    | "update_product" => do
      let _ ← bindParams ["product_id"] [] true kw
      .ok (update_product st (kwGet kw "product_id" .null)
            (kw.filter (fun p => p.1 != "product_id")))
    | "delete_product" => do
      let _ ← bindParams ["product_id"] [] false kw
      .ok (delete_product st (kwGet kw "product_id" .null))
    | "search_products" => do
      let _ ← bindParams ["user_id", "search_term"] ["category"] false kw
      .ok (search_products st (kwGet kw "user_id" .null)
            (kwGet kw "search_term" .null) (kwGet kw "category" .null))
    | "update_product_quantity" => do
      let _ ← bindParams ["product_id", "quantity"] [] false kw
      .ok (update_product_quantity st (kwGet kw "product_id" .null)
            (kwGet kw "quantity" .null))
    | "get_user_orders" => do
      let _ ← bindParams ["user_id"] [] false kw
      .ok (get_user_orders st (kwGet kw "user_id" .null))
    | "get_order_details" => do
      let _ ← bindParams ["order_id"] [] false kw
      .ok (get_order_details st (kwGet kw "order_id" .null))
    | "place_order" => do
      let _ ← bindParams ["user_id", "chat_message"]
                ["order_details", "use_ai_processing"] false kw
      .ok (place_order st (kwGet kw "user_id" .null) (kwGet kw "chat_message" .null)
            (kwGet kw "order_details" .null) (kwGet kw "use_ai_processing" (.bool true)))
    | "update_order_status" => do
      let _ ← bindParams ["order_id", "status"] [] false kw
      .ok (update_order_status st (kwGet kw "order_id" .null) (kwGet kw "status" .null))
    | _ => .error ("no registered callable named \x27" ++ fname ++ "\x27")
  | _ => .error ("argument after ** must be a mapping, not " ++ params.pyTypeName)

/-- The dict returned by the outer `except Exception` handler of
`process_natural_language_query`, wrapping the raised message. -/
def mkFailedQuery (e : String) : Json :=
  .obj [("success", .bool false), ("error", .str ("Failed to process query: " ++ e))]

/-- Result of one dispatcher invocation: the returned dict, whether the
text-generation client was invoked, and the store calls issued. -/
structure AgentOutcome where
  response : Json
  model_called : Bool
  store_calls : List StoreCall

/-- Lines 207-228 of `gemini_agent.py`: act on a parsed model output, still
inside the outer try.  `result.get("function_name") and
result["function_name"] in self.available_functions` evaluates truthiness
first, so a falsy value short-circuits into the no-match branch; a truthy
unhashable value (nonempty list or dict) makes the `in` test raise
`TypeError`, which only the outer handler catches; `.get` on a non-dict
parse result raises `AttributeError` likewise. -/
def dispatchParsed (st : Store) (result : Json) : AgentOutcome :=
  match result with
  | .obj fields =>
    let noMatch : AgentOutcome :=
      ⟨.obj [("success", .bool false), ("function_called", .null),
             ("explanation", kwGet fields "explanation" (.str "No matching function found")),
             ("available_functions", .arr (available_function_names.map Json.str))],
       true, []⟩
    match kwGet fields "function_name" .null with
    | .str s =>
      if s == "" then noMatch
      else if available_function_names.contains s then
        let params := kwGet fields "parameters" (.obj [])
        match call_function st s params with
        | .ok (fnres, calls) =>
          ⟨.obj [("success", .bool true), ("function_called", .str s),
                 ("parameters", params),
                 ("explanation", kwGet fields "explanation" (.str "")),
                 ("result", fnres)],
           true, calls⟩
        | .error e => ⟨mkFailedQuery e, true, []⟩
      else noMatch
    | .arr l =>
      if l.isEmpty then noMatch
      else ⟨mkFailedQuery "unhashable type: \x27list\x27", true, []⟩
    | .obj l =>
      if l.isEmpty then noMatch
      else ⟨mkFailedQuery "unhashable type: \x27dict\x27", true, []⟩
    | _ => noMatch
  | other =>
    ⟨mkFailedQuery ("\x27" ++ other.pyTypeName ++ "\x27 object has no attribute \x27get\x27"),
     true, []⟩

/-- `GeminiAgent.process_natural_language_query(query, context)`.  The
context argument flows only into `_create_system_prompt`, whose output the
source computes and then never includes in the prompt it sends, so no
behaviour depends on it; the prompt text itself reaches the embedding only
through the `GenOutcome` oracle.  Parsing: direct `json.loads` first, then
the greedy brace region; only `JSONDecodeError` of the direct attempt is
caught locally, a decode failure of the region propagates to the outer
handler. -/
def process_natural_language_query (st : Store) (gen : GenOutcome)
    (_query : String) (_context : Json) : AgentOutcome :=
  match gen with
  | .raise e => ⟨mkFailedQuery e, true, []⟩
  | .ok text =>
    match jsonLoads text with
    | .ok result => dispatchParsed st result
    | .error _ =>
      match reBraceSearch text with
      | none =>
        ⟨.obj [("success", .bool false),
               ("error", .str "Failed to parse AI response"),
               ("raw_response", .str text)],
         true, []⟩
      | some region =>
        match jsonLoads region with
        | .ok result => dispatchParsed st result
        | .error m => ⟨mkFailedQuery m, true, []⟩

/-- Parameter names a registry descriptor declares as required: the ones
whose spec string carries neither an `(optional)` nor a `(default: ...)`
marker. -/
def declaredRequired (d : FunctionDescription) : List String :=
  (d.parameters.filter (fun p =>
    !(decide ("(optional)".toList <:+: p.2.toList)
      || decide ("(default:".toList <:+: p.2.toList)))).map Prod.fst

/-- Parameters the Python signature of each callable makes mandatory
(positional parameters without a default; `**kwargs` adds none). -/
def signatureRequiredParams : String → List String
  | "get_seller_products" => ["user_id"]
  | "get_product_details" => ["product_id"]
  | "create_product" => []
  | "update_product" => ["product_id"]
  | "delete_product" => ["product_id"]
  | "search_products" => ["user_id", "search_term"]
  | "update_product_quantity" => ["product_id", "quantity"]
  | "get_user_orders" => ["user_id"]
  | "get_order_details" => ["order_id"]
  | "place_order" => ["user_id", "chat_message"]
  | "update_order_status" => ["order_id", "status"]
  | _ => []

/-- Arguments a callable actually requires: the signature-mandatory ones
plus, for `_create_product`, the `required_fields` its body checks before
doing anything else. -/
def actualRequiredParams (fname : String) : List String :=
  signatureRequiredParams fname ++
    (if fname == "create_product" then create_required_fields else [])

end GeminiAgent

namespace GeminiService

/-- The placeholder item list `_parse_ai_response` synthesizes when it
cannot extract structured data. -/
def placeholderItems : Json :=
  .arr [.obj [("name", .str "order from chat"), ("quantity", .num 1)]]

/-- `GeminiService._parse_ai_response(ai_response, original_message)`:
brace-scan the raw text (the same greedy regex as the dispatcher), parse
the region, and pick the five fields with their defaults.  A missing region
yields the placeholder tagged with the head of the raw text; a region that
fails to parse raises inside the try, and the handler yields the
placeholder tagged with `Original message: ` plus the original message. -/
def parse_ai_response (ai_response original_message : String) : Json :=
  let exceptFallback : Json :=
    .obj [("items", placeholderItems),
          ("special_instructions", .str ""),
          ("delivery_preference", .str "not specified"),
          ("additional_requirements", .str ""),
          ("ai_analysis", .str ("Original message: " ++ original_message))]
  match reBraceSearch ai_response with
  | some region =>
    (match jsonLoads region with
     | .ok (.obj pd) =>
       .obj [("items", kwGet pd "items" (.arr [])),
             ("special_instructions", kwGet pd "special_instructions" (.str "")),
             ("delivery_preference", kwGet pd "delivery_preference" (.str "not specified")),
             ("additional_requirements", kwGet pd "additional_requirements" (.str "")),
             ("ai_analysis", kwGet pd "ai_analysis" (.str (pyTake ai_response 200)))]
     | .ok _ => exceptFallback
     | .error _ => exceptFallback)
  | none =>
    .obj [("items", placeholderItems),
          ("special_instructions", .str ""),
          ("delivery_preference", .str "not specified"),
          ("additional_requirements", .str ""),
          ("ai_analysis", .str (pyTake ai_response 200))]

/-- `GeminiService.process_order_message(chat_message, user_id)`: one
prompt/parse round trip.  The `user_id` reaches only the prompt, so only
the `GenOutcome` oracle carries its effect.  When the text-generation call
raises, the handler returns the fixed failure dict whose `order_details`
has an empty item list and the analysis text `Failed to process with AI`. -/
def process_order_message (gen : GenOutcome) (chat_message _user_id : String) : Json :=
  match gen with
  | .raise e =>
    .obj [("success", .bool false),
          ("error", .str ("Failed to process order: " ++ e)),
          ("order_details",
           .obj [("items", .arr []),
                 ("special_instructions", .str ""),
                 ("delivery_preference", .str "not specified"),
                 ("additional_requirements", .str ""),
                 ("ai_analysis", .str "Failed to process with AI")])]
  | .ok text =>
    let order_details := parse_ai_response text chat_message
    .obj [("success", .bool true),
          ("order_details", order_details),
          ("ai_analysis", jGet order_details "ai_analysis" (.str "")),
          ("processed_message", .str chat_message)]

end GeminiService

namespace FirebaseClient

/-- A document of the `products` collection: the store-assigned id and the
field mapping. -/
structure FDoc where
  id : String
  fields : List (String × Json)

/-- The document as returned to callers: `to_dict()` plus the id written
into the `id` key. -/
def FDoc.asResult (d : FDoc) : Json :=
  .obj (objInsert d.fields "id" (.str d.id))

/-- Documents matching the `where(\x27userId\x27, \x27==\x27, user_id)`
equality filter. -/
def matchingDocs (coll : List FDoc) (user_id : String) : List FDoc :=
  coll.filter (fun d => (kwLookup d.fields "userId").any (fun v =>
    match v with
    | .str s => s == user_id
    | _ => false))

/-- The pagination summary `get_seller_products` returns. -/
structure SellerProductsPage where
  products : List Json
  count : Nat
  total_count : Nat
  total_pages : Nat
  current_page : Nat
  limit : Nat

/-- `FirebaseClient.get_seller_products(user_id, page, limit)` over the
current contents of the `products` collection: count all matching
documents, then stream the query again with `limit` and `offset`
(Firestore applies the offset before the limit regardless of builder
order), and compute `total_pages` with the ceiling expression
`(total + limit - 1) // limit`.  `page` and `limit` are the positive
integers the HTTP layer admits. -/
def get_seller_products (coll : List FDoc) (user_id : String) (page limit : Nat) :
    SellerProductsPage :=
  let offset := (page - 1) * limit
  let matching := matchingDocs coll user_id
  let total_products := matching.length
  let products := ((matching.drop offset).take limit).map FDoc.asResult
  { products := products
    count := products.length
    total_count := total_products
    total_pages := (total_products + limit - 1) / limit
    current_page := page
    limit := limit }

end FirebaseClient

namespace HttpApi

/-- An HTTP response: status code and JSON body. -/
structure HttpResult where
  status : Nat
  body : Json

/-- Body the registered `HTTPException` handler produces: the
`ErrorResponse` model with `details` rendering the status code. -/
def errBody (status : Nat) (detail : String) : Json :=
  .obj [("success", .bool false), ("error", .str detail),
        ("details", .str ("HTTP " ++ toString status))]

/-- The `POST /query` endpoint `process_natural_language_query(request)` of
`main.py` composed with the `HTTPException` handler: an empty or
whitespace-only query raises HTTP 400 before the agent (and with it the
text-generation client) is ever reached; otherwise the agent result is
reshaped into the endpoint envelope.  The outcome records whether the
model was called and which store calls happened. -/
def process_natural_language_query (st : Store) (gen : GenOutcome)
    (query : String) (user_id : Option String) (context : Option (List (String × Json))) :
    HttpResult × Bool × List StoreCall :=
  if pyStrip query == "" then
    (⟨400, errBody 400 "Query is required"⟩, false, [])
  else
    let ctx0 := context.getD []
    let ctx := match user_id with
      | some uid => if uid == "" then ctx0 else objInsert ctx0 "user_id" (.str uid)
      | none => ctx0
    let out := GeminiAgent.process_natural_language_query st gen query (.obj ctx)
    let body :=
      if pyTruthy (jGet out.response "success" .null) then
        Json.obj [("success", .bool true), ("query", .str query),
                  ("function_called", jGet out.response "function_called" .null),
                  ("explanation", jGet out.response "explanation" .null),
                  ("result", jGet out.response "result" .null),
                  ("parameters_used", jGet out.response "parameters" (.obj []))]
      else
        Json.obj [("success", .bool false), ("query", .str query),
                  ("error", jGet out.response "error" .null),
                  ("explanation", jGet out.response "explanation" .null),
                  ("available_functions", jGet out.response "available_functions" (.arr []))]
    (⟨200, body⟩, out.model_called, out.store_calls)

/-- The `ProductCreate` request model of `models.py`: all fields mandatory
except `userType`, which pydantic defaults to `seller`.  (The model has no
`userId` field.) -/
structure ProductCreate where
  category : String
  companyName : String
  description : String
  imageUrl : String
  name : String
  price : ℚ
  quantity : Int
  sku : String
  userType : String := "seller"

/-- `product_data.dict()` in the field order of the model. -/
def ProductCreate.asDict (p : ProductCreate) : Json :=
  .obj [("category", .str p.category), ("companyName", .str p.companyName),
        ("description", .str p.description), ("imageUrl", .str p.imageUrl),
        ("name", .str p.name), ("price", .num p.price),
        ("quantity", .num p.quantity), ("sku", .str p.sku),
        ("userType", .str p.userType)]

/-- The `POST /products` endpoint `create_product(product_data)` of
`main.py` composed with the `HTTPException` handler: blank name, price not
greater than zero, and negative quantity are each rejected with HTTP 400
before the store is touched; past validation the store-assigned id is
returned in a `ProductResponse`, and a store raise maps to HTTP 500. -/
def create_product (st : Store) (p : ProductCreate) : HttpResult × List StoreCall :=
  if pyStrip p.name == "" then
    (⟨400, errBody 400 "Product name is required"⟩, [])
  else if p.price ≤ 0 then
    (⟨400, errBody 400 "Price must be greater than 0"⟩, [])
  else if p.quantity < 0 then
    (⟨400, errBody 400 "Quantity cannot be negative"⟩, [])
  else
    let d := p.asDict
    ((match st.create_product d with
      | .ok product_id =>
        ⟨200, .obj [("success", .bool true), ("product_id", .str product_id),
                    ("message", .str "Product created successfully"), ("data", d)]⟩
      | .error e => ⟨500, errBody 500 ("Failed to create product: " ++ e)⟩),
     [StoreCall.createProduct d])

end HttpApi

/-- Values of `function_name` that send the dispatcher into its no-match
branch: every falsy value and every truthy hashable value that is not a
registry key.  Truthy unhashable values (nonempty lists and dicts) are
excluded: on those the membership test raises instead. -/
def GeminiAgent.noMatchFunctionName : Json → Bool
  | .null => true
  | .bool _ => true
  | .num _ => true
  | .str s => s == "" || !(GeminiAgent.available_function_names.contains s)
  | .arr l => l.isEmpty
  | .obj l => l.isEmpty

/-- A model response whose direct parse fails with `Extra data` and whose
greedy brace region is the whole text, which fails to parse again, although
its first balanced brace-delimited region is valid JSON. -/
def c3_text : String := "\x7b\"a\": 1\x7d \x7b\"b\": 2\x7d"

/-- A model response selecting a registered operation but omitting one of
its required parameters, so that the spread into the callable raises. -/
def c4_text : String :=
  "\x7b\"function_name\": \"update_product_quantity\", \"parameters\": \x7b\"product_id\": \"X\"\x7d\x7d"

/-- A model response whose `function_name` is a nonempty list: truthy but
unhashable, so the registry membership test raises `TypeError`. -/
def c5_text : String := "\x7b\"function_name\": [1], \"explanation\": \"x\"\x7d"

/-- The stub model response of the quantity-update scenario. -/
def c6_text : String :=
  "\x7b\"function_name\":\"update_product_quantity\",\"parameters\":\x7b\"product_id\":\"ABC123\",\"quantity\":25\x7d,\"explanation\":\"...\"\x7d"

/-- A products collection holding exactly fifteen documents owned by
`seller1`. -/
def c7_coll : List FirebaseClient.FDoc :=
  (List.range 15).map (fun i => { id := toString i, fields := [("userId", Json.str "seller1")] })

/-- Agent-path creation parameters with all nine required fields present and
`price` equal to zero. -/
def c8_kwargs : List (String × Json) :=
  [("category", .str "Electronics"), ("companyName", .str "ACME"),
   ("description", .str "d"), ("imageUrl", .str "https://example.com/w.jpg"),
   ("name", .str "Widget"), ("price", .num 0), ("quantity", .num 15),
   ("sku", .str "SKU1"), ("userId", .str "u1")]

/-- The valid creation request of the scenario: price 49.99, quantity 15. -/
def c8_good : HttpApi.ProductCreate :=
  { category := "Electronics", companyName := "Test Company",
    description := "A test gaming mouse for demonstration",
    imageUrl := "https://example.com/mouse.jpg", name := "Test Gaming Mouse",
    price := mkRat 4999 100, quantity := 15, sku := "TEST-MOUSE-001" }

/-- The same creation request with price zero. -/
def c8_zero : HttpApi.ProductCreate := { c8_good with price := 0 }

/-- C1: for every query that is empty or whitespace-only and every context
mapping, the `process_natural_language_query` operation (the `POST /query`
endpoint of `main.py`, which wraps the agent) returns the HTTP 400
validation body with success equal to false, without invoking the
text-generation client and without any store call. -/
theorem C1_blank_query_rejected_without_model_call
    (st : Store) (gen : GenOutcome) (query : String) (user_id : Option String)
    (context : Option (List (String × Json)))
    (h : pyStrip query = "") :
    HttpApi.process_natural_language_query st gen query user_id context =
      (⟨400, HttpApi.errBody 400 "Query is required"⟩, false, []) := by
  unfold HttpApi.process_natural_language_query
  simp [h]

/-- Witness for C1 at the three-space query. -/
theorem C1_witness :
    pyStrip "   " = "" ∧
    HttpApi.process_natural_language_query stubStore (.ok "x") "   " none none =
      (⟨400, HttpApi.errBody 400 "Query is required"⟩, false, []) :=
  ⟨rfl, C1_blank_query_rejected_without_model_call stubStore (.ok "x") "   " none none rfl⟩

/-- C2 counterexample: when the text-generation client raises during
`process_order_message`, the returned `order_details` has an empty item
list and the analysis text `Failed to process with AI` — not the one-item
placeholder tagged with the original message that the claim asserts. -/
theorem C2_counterexample :
    ¬ (jGet (jGet (GeminiService.process_order_message (.raise "boom") "two pizzas" "u1")
          "order_details" .null) "items" .null = GeminiService.placeholderItems ∧
       jGet (jGet (GeminiService.process_order_message (.raise "boom") "two pizzas" "u1")
          "order_details" .null) "ai_analysis" .null = .str "two pizzas") := by
  intro h
  have h1 : (0 : Nat) = 1 := congrArg Json.arrLength h.1
  exact absurd h1 (by decide)

/-- C2 amended: when the text-generation client raises during
`process_order_message`, the pipeline returns the fixed failure dict with
success false, the raised message appended to `Failed to process order: `,
an empty item list and analysis text `Failed to process with AI`; the
one-item placeholder with `Original message: ` plus the original message is
produced by the response-parsing fallback instead, not by this path. -/
theorem C2_generation_failure_returns_empty_items (e msg uid : String) :
    GeminiService.process_order_message (.raise e) msg uid =
      .obj [("success", .bool false),
            ("error", .str ("Failed to process order: " ++ e)),
            ("order_details",
             .obj [("items", .arr []),
                   ("special_instructions", .str ""),
                   ("delivery_preference", .str "not specified"),
                   ("additional_requirements", .str ""),
                   ("ai_analysis", .str "Failed to process with AI")])] := rfl

/-- C6: against the stub model response selecting `update_product_quantity`
with `product_id` ABC123 and `quantity` 25, the dispatcher invokes the
quantity-update callable with exactly those two parameters (the single
recorded store call) and returns success true with the callable\x27s own
result dict — which carries its own success flag — nested under `result`. -/
theorem C6_stub_scenario_invokes_quantity_update (st : Store) :
    GeminiAgent.process_natural_language_query st (.ok c6_text)
        "Update the quantity of product ABC123 to 25" (.obj []) =
      ⟨Json.obj [("success", .bool true),
                 ("function_called", .str "update_product_quantity"),
                 ("parameters", .obj [("product_id", .str "ABC123"), ("quantity", .num 25)]),
                 ("explanation", .str "..."),
                 ("result", (GeminiAgent.update_product_quantity st (.str "ABC123") (.num 25)).1)],
       true, [StoreCall.updateProductQuantity (.str "ABC123") (.num 25)]⟩ ∧
    (GeminiAgent.update_product_quantity st (.str "ABC123") (.num 25)).1 =
      (if st.update_product_quantity (.str "ABC123") (.num 25) then
        Json.obj [("success", .bool true),
                  ("data", .obj [("product_id", .str "ABC123"), ("quantity", .num 25)]),
                  ("message", .str "Product quantity updated to 25")]
       else GeminiAgent.errResult "Failed to update quantity") :=
  ⟨rfl, rfl⟩

/-- C10: if every supplied keyword argument of the agent\x27s update
operation is None (in particular if none are supplied), `_update_product`
returns the fixed failure dict and issues no store call, so the stored
product is untouched. -/
theorem C10_update_without_data_no_store_call (st : Store) (product_id : Json)
    (kw : List (String × Json)) (h : ∀ p ∈ kw, p.2 = Json.null) :
    GeminiAgent.update_product st product_id kw =
      (GeminiAgent.errResult "No valid update data provided", []) := by
  unfold GeminiAgent.update_product
  have hf : kw.filter (fun p => !p.2.isNull) = [] := by
    rw [List.filter_eq_nil_iff]
    intro a ha
    simp [h a ha, Json.isNull]
  simp [hf]

/-- Witness for C10 at a single None-valued update field. -/
theorem C10_witness :
    (∀ p ∈ [(("name" : String), Json.null)], p.2 = Json.null) ∧
    GeminiAgent.update_product stubStore (.str "P1") [("name", Json.null)] =
      (GeminiAgent.errResult "No valid update data provided", []) :=
  ⟨fun p hp => by rw [List.mem_singleton] at hp; subst hp; rfl,
   C10_update_without_data_no_store_call stubStore (.str "P1") [("name", Json.null)]
     (fun p hp => by rw [List.mem_singleton] at hp; subst hp; rfl)⟩

/-- C3 counterexample: at a response whose first balanced brace region is
valid JSON but whose greedy first-brace-to-last-brace region is not, both
of the code\x27s parse attempts fail and the dispatcher returns the generic
outer-handler error, which does not carry the raw response text — contrary
to the claim that a double parse failure yields a result with the raw text
attached (and contrary to the retry being on the first balanced region,
which would have parsed). -/
theorem C3_counterexample :
    jsonLoads c3_text = .error "Extra data" ∧
    reBraceSearch c3_text = some c3_text ∧
    (GeminiAgent.process_natural_language_query stubStore (.ok c3_text) "q" (.obj [])).response =
      GeminiAgent.mkFailedQuery "Extra data" ∧
    ¬ (jLookup (GeminiAgent.process_natural_language_query stubStore (.ok c3_text)
          "q" (.obj [])).response "raw_response" = some (.str c3_text)) :=
  ⟨rfl, rfl, rfl, fun h => Option.noConfusion h⟩

/-- C3 amended: on a direct parse failure the dispatcher retries on the
greedy substring from the first opening brace to the last closing brace
(not the first balanced region); when no such substring exists it returns
success false with the raw text under `raw_response`; when the substring
exists but fails to parse, the outer handler returns the generic failure
dict carrying the parse error but not the raw text; in both cases nothing
is raised to the caller. -/
theorem C3_parse_fallback (st : Store) (q : String) (ctx : Json) (text : String) :
    (∀ m0, jsonLoads text = .error m0 → reBraceSearch text = none →
      GeminiAgent.process_natural_language_query st (.ok text) q ctx =
        ⟨.obj [("success", .bool false),
               ("error", .str "Failed to parse AI response"),
               ("raw_response", .str text)], true, []⟩) ∧
    (∀ m0 region m1, jsonLoads text = .error m0 → reBraceSearch text = some region →
      jsonLoads region = .error m1 →
      GeminiAgent.process_natural_language_query st (.ok text) q ctx =
        ⟨GeminiAgent.mkFailedQuery m1, true, []⟩) := by
  constructor
  · intro m0 h1 h2
    unfold GeminiAgent.process_natural_language_query
    simp [h1, h2]
  · intro m0 region m1 h1 h2 h3
    unfold GeminiAgent.process_natural_language_query
    simp [h1, h2, h3]

/-- Witness for C3 at a braceless response and at the unbalanced-region
response. -/
theorem C3_witness :
    (jsonLoads "no structured data" = .error "Expecting value" ∧
     reBraceSearch "no structured data" = none ∧
     GeminiAgent.process_natural_language_query stubStore (.ok "no structured data")
         "q" (.obj []) =
       ⟨.obj [("success", .bool false),
              ("error", .str "Failed to parse AI response"),
              ("raw_response", .str "no structured data")], true, []⟩) ∧
    (jsonLoads c3_text = .error "Extra data" ∧
     GeminiAgent.process_natural_language_query stubStore (.ok c3_text) "q" (.obj []) =
       ⟨GeminiAgent.mkFailedQuery "Extra data", true, []⟩) :=
  ⟨⟨rfl, rfl,
    (C3_parse_fallback stubStore "q" (.obj []) "no structured data").1
      "Expecting value" rfl rfl⟩,
   ⟨rfl,
    (C3_parse_fallback stubStore "q" (.obj []) c3_text).2
      "Extra data" c3_text "Extra data" rfl rfl rfl⟩⟩

/-- C4: whenever spreading the parsed parameters into the selected
registered callable raises (the `.error` outcome of `call_function`), the
dispatcher\x27s outer handler converts the exception into a success-false
dict carrying the raised message, and nothing propagates to the caller
(the embedded dispatcher is total). -/
theorem C4_invocation_exception_converted
    (st : Store) (q : String) (ctx : Json) (text : String)
    (fields : List (String × Json)) (s : String) (e : String)
    (hparse : jsonLoads text = .ok (.obj fields))
    (hname : kwGet fields "function_name" .null = .str s)
    (hmem : s ∈ GeminiAgent.available_function_names)
    (hcall : GeminiAgent.call_function st s (kwGet fields "parameters" (.obj [])) =
      .error e) :
    (GeminiAgent.process_natural_language_query st (.ok text) q ctx).response =
      GeminiAgent.mkFailedQuery e := by
  have hs : s ≠ "" := by
    rintro rfl
    exact absurd hmem (by decide)
  have hc : GeminiAgent.available_function_names.contains s = true := by
    simpa using hmem
  unfold GeminiAgent.process_natural_language_query
  simp only [hparse]
  unfold GeminiAgent.dispatchParsed
  simp [hname, hs, hc, hcall, hmem]

/-- Witness for C4: a response selecting `update_product_quantity` without
the required `quantity` parameter makes the binding raise and the
dispatcher report it. -/
theorem C4_witness :
    jsonLoads c4_text = .ok (.obj [("function_name", .str "update_product_quantity"),
                                   ("parameters", .obj [("product_id", .str "X")])]) ∧
    "update_product_quantity" ∈ GeminiAgent.available_function_names ∧
    GeminiAgent.call_function stubStore "update_product_quantity"
        (.obj [("product_id", .str "X")]) =
      .error "missing a required argument: \x27quantity\x27" ∧
    (GeminiAgent.process_natural_language_query stubStore (.ok c4_text) "q"
        (.obj [])).response =
      GeminiAgent.mkFailedQuery "missing a required argument: \x27quantity\x27" :=
  ⟨rfl, by decide, rfl,
   C4_invocation_exception_converted stubStore "q" (.obj []) c4_text
     [("function_name", .str "update_product_quantity"),
      ("parameters", .obj [("product_id", .str "X")])]
     "update_product_quantity" "missing a required argument: \x27quantity\x27"
     rfl rfl (by decide) rfl⟩

/-- C5 counterexample: a parsed output whose `function_name` is the
nonempty list `[1]` is not a key of the registry, yet the dispatcher does
not return the no-match result with the available-functions list — the
membership test raises `TypeError` and the generic failure dict comes back
instead, with no `available_functions` key at all. -/
theorem C5_counterexample :
    (GeminiAgent.process_natural_language_query stubStore (.ok c5_text) "q"
        (.obj [])).response =
      GeminiAgent.mkFailedQuery "unhashable type: \x27list\x27" ∧
    ¬ (jLookup (GeminiAgent.process_natural_language_query stubStore (.ok c5_text)
          "q" (.obj [])).response "available_functions" =
        some (.arr (GeminiAgent.available_function_names.map Json.str))) :=
  ⟨rfl, fun h => Option.noConfusion h⟩

/-- C5 amended: for every parsed output whose `function_name` is falsy
(null, absent, false, zero, empty string or empty container) or a hashable
value that is not a registry key (a string outside the eleven names, a
number, true), the dispatcher returns success false with
`function_called` null, the model\x27s explanation defaulting to
`No matching function found`, and `available_functions` equal to the names
of all eleven registered operations; a truthy unhashable `function_name`
instead raises in the membership test and yields the generic failure
dict. -/
theorem C5_no_match_result (st : Store) (q : String) (ctx : Json) (text : String)
    (fields : List (String × Json))
    (hparse : jsonLoads text = .ok (.obj fields))
    (hfn : GeminiAgent.noMatchFunctionName (kwGet fields "function_name" .null) = true) :
    (GeminiAgent.process_natural_language_query st (.ok text) q ctx).response =
      .obj [("success", .bool false), ("function_called", .null),
            ("explanation", kwGet fields "explanation" (.str "No matching function found")),
            ("available_functions", .arr (GeminiAgent.available_function_names.map Json.str))] ∧
    GeminiAgent.available_function_names.length = 11 := by
  refine ⟨?_, by decide⟩
  unfold GeminiAgent.process_natural_language_query
  simp only [hparse]
  unfold GeminiAgent.dispatchParsed
  rcases hv : kwGet fields "function_name" .null with _ | b | qq | s | l | l <;>
    rw [hv] at hfn <;>
    simp_all [GeminiAgent.noMatchFunctionName]
  rcases hfn with rfl | hfn
  · simp
  · by_cases hse : s = "" <;> simp [hse, hfn]

/-- Witness for C5 at a parsed output selecting an unregistered name. -/
theorem C5_witness :
    jsonLoads "\x7b\"function_name\": \"get_weather\"\x7d" =
      .ok (.obj [("function_name", .str "get_weather")]) ∧
    GeminiAgent.noMatchFunctionName (.str "get_weather") = true ∧
    (GeminiAgent.process_natural_language_query stubStore
        (.ok "\x7b\"function_name\": \"get_weather\"\x7d") "q" (.obj [])).response =
      .obj [("success", .bool false), ("function_called", .null),
            ("explanation", .str "No matching function found"),
            ("available_functions", .arr (GeminiAgent.available_function_names.map Json.str))] ∧
    GeminiAgent.available_function_names.length = 11 :=
  ⟨rfl, by decide,
   C5_no_match_result stubStore "q" (.obj []) "\x7b\"function_name\": \"get_weather\"\x7d"
     [("function_name", .str "get_weather")] rfl (by decide)⟩

/-- C7: for any collection, `get_seller_products` returns the matching
documents sliced at offset `(page - 1) * limit` with at most `limit`
entries, reports `count` as the size of that slice, `total_pages` as the
ceiling of the matching total over `limit` (both as the integer expression
the source computes and as the two ceiling inequalities), and echoes the
requested page; instantiating fifteen matching documents at page 2 and
limit 10 gives exactly five products and two pages. -/
theorem C7_seller_products_pagination (coll : List FirebaseClient.FDoc)
    (uid : String) (page limit : Nat) (_hp : 1 ≤ page) (hl : 1 ≤ limit) :
    (FirebaseClient.get_seller_products coll uid page limit).products =
      (((FirebaseClient.matchingDocs coll uid).drop ((page - 1) * limit)).take limit).map
        FirebaseClient.FDoc.asResult ∧
    (FirebaseClient.get_seller_products coll uid page limit).count =
      min limit ((FirebaseClient.matchingDocs coll uid).length - (page - 1) * limit) ∧
    (FirebaseClient.get_seller_products coll uid page limit).count ≤ limit ∧
    (FirebaseClient.get_seller_products coll uid page limit).total_pages =
      ((FirebaseClient.matchingDocs coll uid).length + limit - 1) / limit ∧
    (FirebaseClient.matchingDocs coll uid).length ≤
      (FirebaseClient.get_seller_products coll uid page limit).total_pages * limit ∧
    (FirebaseClient.get_seller_products coll uid page limit).total_pages * limit <
      (FirebaseClient.matchingDocs coll uid).length + limit ∧
    (FirebaseClient.get_seller_products coll uid page limit).current_page = page := by
  have hbounds : ∀ n L : Nat, 1 ≤ L →
      n ≤ ((n + L - 1) / L) * L ∧ ((n + L - 1) / L) * L < n + L := by
    intro n L hL
    have hmod := Nat.div_add_mod (n + L - 1) L
    have hlt : (n + L - 1) % L < L := Nat.mod_lt _ (by omega)
    rw [Nat.mul_comm ((n + L - 1) / L) L]
    set x := L * ((n + L - 1) / L) with hx
    set r := (n + L - 1) % L with hr
    omega
  refine ⟨rfl, ?_, ?_, rfl, ?_, ?_, rfl⟩
  · show ((((FirebaseClient.matchingDocs coll uid).drop ((page - 1) * limit)).take
        limit).map FirebaseClient.FDoc.asResult).length = _
    simp [List.length_map, List.length_take, List.length_drop]
  · show ((((FirebaseClient.matchingDocs coll uid).drop ((page - 1) * limit)).take
        limit).map FirebaseClient.FDoc.asResult).length ≤ limit
    simp [List.length_map, List.length_take, List.length_drop]
  · exact (hbounds (FirebaseClient.matchingDocs coll uid).length limit hl).1
  · exact (hbounds (FirebaseClient.matchingDocs coll uid).length limit hl).2

/-- Witness for C7: fifteen matching documents, page 2, limit 10 give five
products, two total pages, current page 2. -/
theorem C7_witness :
    (1 : Nat) ≤ 2 ∧ (1 : Nat) ≤ 10 ∧
    (FirebaseClient.matchingDocs c7_coll "seller1").length = 15 ∧
    (FirebaseClient.get_seller_products c7_coll "seller1" 2 10).count = 5 ∧
    (FirebaseClient.get_seller_products c7_coll "seller1" 2 10).total_pages = 2 ∧
    (FirebaseClient.get_seller_products c7_coll "seller1" 2 10).current_page = 2 := by
  have h := C7_seller_products_pagination c7_coll "seller1" 2 10 (by decide) (by decide)
  refine ⟨by decide, by decide, by decide, ?_, ?_, h.2.2.2.2.2.2⟩
  · rw [h.2.1]; decide
  · rw [h.2.2.2.1]; decide

/-- C8 counterexample: on the agent-dispatched creation path, parameters
with all nine required fields and price zero are not rejected — the store
call is issued and the creation reports success, contradicting the claim
that a zero price is rejected before any store call on every creation
path. -/
theorem C8_counterexample :
    kwGet c8_kwargs "price" .null = .num 0 ∧
    jGet (GeminiAgent.create_product stubStore c8_kwargs).1 "success" .null = .bool true ∧
    ¬ ((GeminiAgent.create_product stubStore c8_kwargs).2 = []) :=
  ⟨rfl, rfl, fun h => List.noConfusion h⟩

/-- C8 amended: on the HTTP endpoint path a price not greater than zero is
rejected with a 400 validation error and no store call, and a valid
request (non-blank name, positive price, non-negative quantity) for which
the store assigns an id succeeds with HTTP 200 returning that id; the
agent-dispatched `_create_product` path checks only the presence of the
nine required fields and performs no price validation, issuing the store
call whenever they are present, whatever the price. -/
theorem C8_price_validation_per_path (st : Store) (p : HttpApi.ProductCreate)
    (i : String) (kw : List (String × Json)) :
    (p.price ≤ 0 →
      (HttpApi.create_product st p).1.status = 400 ∧
      (HttpApi.create_product st p).2 = [] ∧
      jGet (HttpApi.create_product st p).1.body "success" .null = .bool false) ∧
    (pyStrip p.name ≠ "" → 0 < p.price → 0 ≤ p.quantity →
      st.create_product p.asDict = .ok i →
      (HttpApi.create_product st p).1.status = 200 ∧
      jGet (HttpApi.create_product st p).1.body "product_id" .null = .str i ∧
      jGet (HttpApi.create_product st p).1.body "success" .null = .bool true ∧
      (HttpApi.create_product st p).2 = [StoreCall.createProduct p.asDict]) ∧
    ((∀ f ∈ GeminiAgent.create_required_fields, kw.any (fun q2 => q2.1 == f) = true) →
      (GeminiAgent.create_product st kw).2 =
        [StoreCall.createProduct (.obj (if kw.any (fun q2 => q2.1 == "userType") then kw
                                        else objInsert kw "userType" (.str "seller")))]) := by
  refine ⟨?_, ?_, ?_⟩
  · intro hp
    unfold HttpApi.create_product
    by_cases hn : (pyStrip p.name == "") = true
    · simp [hn, jGet, jLookup, kwLookup, HttpApi.errBody]
    · simp only [Bool.not_eq_true] at hn
      simp [hn, hp, jGet, jLookup, kwLookup, HttpApi.errBody]
  · intro hn hp hq hst
    unfold HttpApi.create_product
    have hn' : (pyStrip p.name == "") = false := beq_eq_false_iff_ne.mpr hn
    have hp' : ¬ (p.price ≤ 0) := not_le.mpr hp
    have hq' : ¬ (p.quantity < 0) := not_lt.mpr hq
    simp [hn', hp', hq', hst, jGet, jLookup, kwLookup]
  · intro hall
    unfold GeminiAgent.create_product
    have hnone : GeminiAgent.create_required_fields.find?
        (fun f => !(kw.any (fun p2 => p2.1 == f))) = none := by
      rw [List.find?_eq_none]
      intro f hf
      simp [hall f hf]
    simp [hnone]

/-- Witness for C8: the zero-price request is rejected with 400 and no
store call; the 49.99-price, quantity-15 request succeeds against a store
assigning the non-empty id `prod1`; the agent path with all required
fields and price zero still issues its store call. -/
theorem C8_witness :
    (c8_zero.price ≤ 0 ∧
     (HttpApi.create_product stubStore c8_zero).1.status = 400 ∧
     (HttpApi.create_product stubStore c8_zero).2 = []) ∧
    (stubStore.create_product c8_good.asDict = .ok "prod1" ∧ "prod1" ≠ "" ∧
     (HttpApi.create_product stubStore c8_good).1.status = 200 ∧
     jGet (HttpApi.create_product stubStore c8_good).1.body "product_id" .null =
       .str "prod1") ∧
    (GeminiAgent.create_product stubStore c8_kwargs).2 =
      [StoreCall.createProduct (.obj (c8_kwargs ++ [("userType", .str "seller")]))] := by
  have h := C8_price_validation_per_path stubStore c8_zero "prod1" c8_kwargs
  have h2 := C8_price_validation_per_path stubStore c8_good "prod1" c8_kwargs
  have ha := h.1 (by decide)
  have hb := h2.2.1 (by decide) (by decide) (by decide) rfl
  have hc := h2.2.2 (by decide)
  refine ⟨⟨by decide, ha.1, ha.2.1⟩, ⟨rfl, by decide, hb.1, hb.2.1⟩, ?_⟩
  · rw [hc]; rfl

/-- C9: the registry is consistent — the eleven descriptor names are
distinct and coincide, in order, with the keys of the callable mapping,
and every descriptor\x27s declared required parameters (the ones without an
optional or default marker) are among the corresponding callable\x27s
actual required arguments (its mandatory signature parameters plus, for
product creation, the required-field list its body checks). -/
theorem C9_registry_consistent :
    (GeminiAgent.function_descriptions.map GeminiAgent.FunctionDescription.name).Nodup ∧
    GeminiAgent.function_descriptions.map GeminiAgent.FunctionDescription.name =
      GeminiAgent.available_function_names ∧
    GeminiAgent.available_function_names.length = 11 ∧
    ∀ d ∈ GeminiAgent.function_descriptions,
      ∀ x ∈ GeminiAgent.declaredRequired d, x ∈ GeminiAgent.actualRequiredParams d.name := by
  refine ⟨by decide, by decide, by decide, by decide⟩
